import Mathlib

/-!
Verification of the gomaa_automation repository: a Flask dashboard
(professional_ai_automation.py) orchestrating an LLM browser agent.

The shallow embedding below translates the configuration / status / results
data model and the route handlers into Lean.  The Python configuration is a
string-keyed dictionary, modelled as an association list over a small JSON
value type; the status and results dictionaries have a fixed key set in the
source and are modelled as structures.  File persistence and socket emission
are side effects outside the state model; emitted socket events are recorded
as an explicit event list where a claim needs them.
-/

/-- JSON-ish values stored in the configuration dictionary. -/
inductive JVal where
  | jstr (s : String)
  | jbool (b : Bool)
  | jnum (q : ℚ)
  | jnull
deriving DecidableEq

/-- Python truthiness of a JSON value (`if value:`). -/
def jTruthy : JVal → Bool
  | JVal.jstr s => s ≠ ""
  | JVal.jbool b => b
  | JVal.jnum q => q ≠ 0
  | JVal.jnull => false

/-- String rendering of a JSON value (only the string case arises on the
modelled paths; the other cases follow the Python repr loosely). -/
def asStr : JVal → String
  | JVal.jstr s => s
  | JVal.jbool b => if b then "True" else "False"
  | JVal.jnum q => toString q
  | JVal.jnull => "None"

/-- The mutable configuration dictionary `test_config`. -/
def Config := List (String × JVal)

/-- First-match lookup, the model of Python dict access with unique keys. -/
def lookupK : List (String × JVal) → String → Option JVal
  | [], _ => none
  | (k, v) :: rest, key => if k = key then some v else lookupK rest key

/-- Dict assignment: replace the value at the key, or append a new entry. -/
def setK : List (String × JVal) → String → JVal → List (String × JVal)
  | [], k, v => [(k, v)]
  | (k0, v0) :: rest, k, v =>
      if k0 = k then (k, v) :: rest else (k0, v0) :: setK rest k v

/-- The key set of a configuration dictionary (in order). -/
def keysOf (cfg : List (String × JVal)) : List String := cfg.map Prod.fst

/-- The module-level default `test_config` literal (lines 81-94 of
professional_ai_automation.py).  Note that no `test_focus` key is present. -/
def defaultConfig : Config :=
  [("website_url", JVal.jstr "https://demoblaze.com/"),
   ("provider", JVal.jstr "google"),
   ("google_api_key", JVal.jstr ""),
   ("openai_api_key", JVal.jstr ""),
   ("groq_api_key", JVal.jstr ""),
   ("laminar_api_key", JVal.jstr ""),
   ("model", JVal.jstr "gemini-1.5-flash"),
   ("headless", JVal.jbool false),
   ("custom_prompt", JVal.jstr ""),
   ("window_width", JVal.jnum 1920),
   ("window_height", JVal.jnum 1080),
   ("api_keys_configured", JVal.jbool false)]

/-- One entry of `execution_log` / `execution_logs`. -/
structure LogEntry where
  timestamp : String
  level : String
  message : String
  datetime : String
deriving DecidableEq

/-- One step record inside a test case. -/
structure StepRecord where
  step_number : Nat
  action : String
  expected_result : String
  status : String
  actual_result : Option String
  execution_time : Option ℚ
deriving DecidableEq

/-- A test case record; fields that appear only in some of the produced
dictionaries are optional. -/
structure TestCase where
  test_id : String
  title : String
  description : Option String
  priority : Option String
  status : String
  execution_time : Option ℚ
  test_steps : List StepRecord
  created_date : Option String
  tester : Option String
deriving DecidableEq

/-- A bug report record; fields that appear only in some of the produced
dictionaries are optional. -/
structure BugReport where
  bug_id : String
  title : String
  description : String
  severity : String
  category : String
  steps_to_reproduce : Option (List String)
  expected_behavior : Option String
  actual_behavior : Option String
  environment : Option String
  browser : Option String
  device : Option String
  screen_resolution : Option String
  tester : Option String
  reported_date : Option String
  status : Option String
deriving DecidableEq

/-- One coverage snapshot appended to `coverage_reports`. -/
structure CoverageSnapshot where
  timestamp : String
  coverage : List (String × ℚ)
deriving DecidableEq

/-- The shared results dictionary `test_results` (fixed key set). -/
structure Results where
  test_cases : List TestCase
  bug_reports : List BugReport
  test_suites : List String
  coverage_reports : List CoverageSnapshot
  execution_logs : List LogEntry
  recommendations : List String
deriving DecidableEq

/-- The shared status dictionary `test_status` (fixed key set). -/
structure Status where
  is_running : Bool
  is_paused : Bool
  current_test_case : Nat
  total_test_cases : Nat
  progress_percentage : Nat
  current_url : String
  status_message : String
  current_focus_area : String
  test_coverage : List (String × ℚ)
deriving DecidableEq

/-- The module-level initial `test_results` literal. -/
def initialResults : Results :=
  { test_cases := [], bug_reports := [], test_suites := [],
    coverage_reports := [], execution_logs := [], recommendations := [] }

/-- The module-level initial `test_status` literal. -/
def initialStatus : Status :=
  { is_running := false, is_paused := false, current_test_case := 0,
    total_test_cases := 0, progress_percentage := 0, current_url := "",
    status_message := "Ready for professional testing",
    current_focus_area := "", test_coverage := [] }

/-- One iteration of the config-merge loop shared verbatim by the bodies of
`update_config` (lines 437-447) and `start_test` (lines 480-490): a truthy
`api_key` value is routed to the credential field of the current provider
(google / openai / groq only; other providers drop it); any other key is
written only when it is already present in the dictionary.  A missing
`provider` key would raise KeyError in Python; it is present in every
configuration the app constructs, and the claims assume it. -/
def mergeStep (cfg : Config) (kv : String × JVal) : Config :=
  if kv.1 = "api_key" ∧ jTruthy kv.2 then
    match lookupK cfg "provider" with
    | some (JVal.jstr "google") => setK cfg "google_api_key" kv.2
    | some (JVal.jstr "openai") => setK cfg "openai_api_key" kv.2
    | some (JVal.jstr "groq") => setK cfg "groq_api_key" kv.2
    | _ => cfg
  else if (lookupK cfg kv.1).isSome then setK cfg kv.1 kv.2 else cfg

/-- The config merge applied by both POST handlers: first set `provider`
when the request body carries it, then fold the loop body over the items. -/
def mergeConfigData (cfg : Config) (data : List (String × JVal)) : Config :=
  let cfg1 := match lookupK data "provider" with
    | some v => setK cfg "provider" v
    | none => cfg
  data.foldl mergeStep cfg1

/-- POST `/api/config` (`update_config`, lines 424-466): merge the request
body, then recompute `api_keys_configured` from the truthiness of the three
credential fields.  An empty body skips everything (`if data:`). -/
def update_config (cfg : Config) (data : List (String × JVal)) : Config :=
  if data.isEmpty then cfg
  else
    let cfg := mergeConfigData cfg data
    let googleOk := jTruthy ((lookupK cfg "google_api_key").getD (JVal.jstr ""))
    let openaiOk := jTruthy ((lookupK cfg "openai_api_key").getD (JVal.jstr ""))
    let groqOk := jTruthy ((lookupK cfg "groq_api_key").getD (JVal.jstr ""))
    setK cfg "api_keys_configured" (JVal.jbool (googleOk || openaiOk || groqOk))

/-- GET `/api/config` (`get_config`, lines 419-422): returns the live
configuration as JSON. -/
def get_config (cfg : Config) : Config := cfg

/-- A model client as constructed by the factory. -/
inductive LLMClient where
  | chatGoogle (model key : String)
  | chatOpenAI (model key : String)
  | chatGroq (model key : String)
  | chatOllama (model : String)
deriving DecidableEq

/-- The ValueError cases raised by `create_llm`. -/
inductive LLMError where
  | notInstalled
  | missingKey (provider : String)
  | unsupported (provider : String)
deriving DecidableEq

/-- Python truthiness of an optional string credential (`if not api_key:`
fires on both None and the empty string). -/
def optTruthy : Option String → Bool
  | none => false
  | some s => s ≠ ""

/-- `create_llm` (lines 153-174): the provider-dispatch factory. -/
def create_llm (laminarAvailable : Bool) (provider model : String)
    (api_key : Option String) : Except LLMError LLMClient :=
  if ¬ laminarAvailable then Except.error LLMError.notInstalled
  else if provider = "google" then
    if ¬ optTruthy api_key then Except.error (LLMError.missingKey "google")
    else Except.ok (LLMClient.chatGoogle model (api_key.getD ""))
  else if provider = "openai" then
    if ¬ optTruthy api_key then Except.error (LLMError.missingKey "openai")
    else Except.ok (LLMClient.chatOpenAI model (api_key.getD ""))
  else if provider = "groq" then
    if ¬ optTruthy api_key then Except.error (LLMError.missingKey "groq")
    else Except.ok (LLMClient.chatGroq model (api_key.getD ""))
  else if provider = "ollama" then Except.ok (LLMClient.chatOllama model)
  else Except.error (LLMError.unsupported provider)

/-- `_generate_test_task` (lines 206-224): the agent task prompt, built from
the configured website URL and the `custom_prompt` instructions (with the
literal default used when the key is absent).  A missing `website_url` key
would raise KeyError in Python; the key is present in the shipped defaults. -/
def generate_test_task (cfg : Config) : String :=
  let instructions :=
    asStr ((lookupK cfg "custom_prompt").getD
      (JVal.jstr "Perform a general test of the website."))
  let url := asStr ((lookupK cfg "website_url").getD (JVal.jstr ""))
  "\n        You are a senior QA tester. Your goal is to test the website: "
    ++ url ++
    ".\n\n        Please follow these instructions:\n        "
    ++ instructions ++
    "\n\n        Your task is to identify bugs, usability issues, or any unexpected behavior.\n\n        Here are some rules to follow:\n        -   Do not get stuck in a loop. If you perform an action, try a different action next.\n        -   Your test should not exceed 8 steps.\n        -   Provide a summary of your findings at the end.\n        "

/-- Socket.IO events the embedded handlers broadcast (log_message events,
whose payloads are wall-clock dependent, are not tracked). -/
inductive Event where
  | connected
  | status_update
  | results_update
  | test_completed
  | test_stopped
deriving DecidableEq

/-- The fields of the results dictionary handed to `_process_test_results`
by `_run_direct_browser_test`; each optional field models the corresponding
`if key in results` presence check. -/
structure RunOutput where
  test_cases : Option (List TestCase)
  bug_reports : Option (List BugReport)
  execution_log : Option (List LogEntry)
  recommendations : Option (List String)
  coverage : Option (List (String × ℚ))
deriving DecidableEq

/-- `_process_test_results` (lines 365-398): overwrite test cases, bug
reports and recommendations when present, extend the execution logs, and
append a timestamped coverage snapshot when `summary.test_coverage` is
present (also mirrored into the status record). -/
def process_test_results (now : String) (st : Status) (res : Results)
    (out : RunOutput) : Status × Results :=
  let res := match out.test_cases with
    | some tcs => { res with test_cases := tcs }
    | none => res
  let res := match out.bug_reports with
    | some brs => { res with bug_reports := brs }
    | none => res
  let res := match out.execution_log with
    | some l => { res with execution_logs := res.execution_logs ++ l }
    | none => res
  let res := match out.recommendations with
    | some r => { res with recommendations := r }
    | none => res
  match out.coverage with
  | some c =>
      ({ st with test_coverage := c },
       { res with coverage_reports := res.coverage_reports ++ [⟨now, c⟩] })
  | none => (st, res)

/-- The CRITICAL bug report appended by the `except` branch of
`run_professional_test_suite` (lines 255-262). -/
def criticalBugReport (e : String) (now : String) : BugReport :=
  { bug_id := "ERROR_" ++ now,
    title := "Test Suite Execution Error",
    description := "Professional test suite execution failed: " ++ e,
    severity := "CRITICAL",
    category := "Technical",
    steps_to_reproduce := none, expected_behavior := none,
    actual_behavior := none, environment := none, browser := none,
    device := none, screen_resolution := none, tester := none,
    reported_date := some now, status := none }

/-- `run_professional_test_suite` (lines 228-270).  The body of the `try`
block (the whole agent invocation, an opaque external call) is abstracted as
an `Except`-valued outcome together with the status record as the body left
it; the embedding captures the `except` branch (append a CRITICAL bug
report) and the `finally` branch (clear the running flag, set the terminal
message, broadcast `status_update` and `test_completed`). -/
def run_professional_test_suite (bodyStatus : Status)
    (body : Except String RunOutput) (now : String) (res : Results) :
    Status × Results × List Event :=
  match body with
  | Except.ok out =>
      let (st1, res1) := process_test_results now bodyStatus res out
      ({ st1 with
          is_running := false,
          status_message := "Professional testing completed" },
       res1,
       [Event.results_update, Event.status_update, Event.test_completed])
  | Except.error e =>
      ({ bodyStatus with
          is_running := false,
          status_message := "Professional testing completed" },
       { res with bug_reports := res.bug_reports ++ [criticalBugReport e now] },
       [Event.status_update, Event.test_completed])

/-- The outcome of a POST `/api/start` request. -/
inductive StartOutcome where
  | badRequestUrl
  | badRequestKey (provider : String)
  | laminarUnavailable
  | keyError (key : String)
  | started
deriving DecidableEq

/-- Whether an outcome is one of the 400 validation rejections. -/
def StartOutcome.isBadRequest : StartOutcome → Bool
  | StartOutcome.badRequestUrl => true
  | StartOutcome.badRequestKey _ => true
  | _ => false

/-- `start_test` (lines 468-540): merge the request body into the
configuration, validate the website URL and the credential of the chosen
provider (ollama requires none), then reset the shared status and results
and launch the background thread.  The `test_config["test_focus"]` read in
the status reset raises KeyError when the key is absent, which Flask turns
into a 500 response; this is modelled by the `keyError` outcome.  The final
boolean records whether the background thread was started. -/
def start_test (laminarAvailable : Bool) (cfg : Config) (st : Status)
    (res : Results) (data : List (String × JVal)) :
    StartOutcome × Config × Status × Results × Bool :=
  let cfg := mergeConfigData cfg data
  match lookupK cfg "website_url" with
  | none => (StartOutcome.keyError "website_url", cfg, st, res, false)
  | some u =>
    if ¬ jTruthy u then (StartOutcome.badRequestUrl, cfg, st, res, false)
    else
      match lookupK cfg "provider" with
      | none => (StartOutcome.keyError "provider", cfg, st, res, false)
      | some pv =>
        let credentialOk :=
          if pv = JVal.jstr "ollama" then true
          else match pv with
            | JVal.jstr p =>
                match lookupK cfg (p ++ "_api_key") with
                | some v => jTruthy v
                | none => false
            | _ => false
        if ¬ credentialOk then
          (StartOutcome.badRequestKey (asStr pv), cfg, st, res, false)
        else if ¬ laminarAvailable then
          (StartOutcome.laminarUnavailable, cfg, st, res, false)
        else
          match lookupK cfg "test_focus" with
          | none => (StartOutcome.keyError "test_focus", cfg, st, res, false)
          | some fv =>
            (StartOutcome.started, cfg,
             { st with
                is_running := true, is_paused := false,
                progress_percentage := 0, current_url := asStr u,
                status_message := "Initializing...",
                current_focus_area := asStr fv, test_coverage := [] },
             { res with
                test_cases := [], bug_reports := [],
                test_suites := [], coverage_reports := [],
                execution_logs := [], recommendations := [] },
             true)

/-- The response of POST `/api/pause`. -/
inductive PauseResp where
  | statusBody (s : String)
  | badRequest (msg : String)
deriving DecidableEq

/-- `pause_test` (lines 562-581): toggle the paused flag while a run is in
progress, 400 otherwise. -/
def pause_test (st : Status) : PauseResp × Status :=
  if st.is_running then
    if st.is_paused then
      (PauseResp.statusBody "resumed",
       { st with
          is_paused := false,
          status_message := "Professional testing resumed" })
    else
      (PauseResp.statusBody "paused",
       { st with
          is_paused := true,
          status_message := "Professional testing paused" })
  else (PauseResp.badRequest "No test running", st)

/-- The sample coverage mapping written by `load_sample_data`. -/
def sampleCoverage : List (String × ℚ) :=
  [("Functional Testing", 85), ("UI/UX Testing", 90),
   ("Responsiveness Testing", 75), ("Accessibility Testing", 60),
   ("Performance Testing", 80), ("Security Testing", 70),
   ("Browser Compatibility", 85), ("Content Testing", 95)]

/-- First sample test case of `load_sample_data`. -/
def sampleTestCase1 (now : String) : TestCase :=
  { test_id := "BATCH_ABOUT_US_CONTENT_ELEMENTS",
    title := "Batch Test: Content Elements on About Us",
    description := some "Efficiently test all content elements together on the about us page",
    priority := some "P1", status := "PASSED",
    execution_time := some (5 / 2),
    test_steps :=
      [{ step_number := 1,
         action := "Test headings and text functionality and appearance",
         expected_result := "headings and text should work correctly and look good",
         status := "PASSED", actual_result := none, execution_time := none },
       { step_number := 2,
         action := "Test images and media functionality and appearance",
         expected_result := "images and media should work correctly and look good",
         status := "PASSED", actual_result := none, execution_time := none }],
    created_date := some now, tester := some "AI Testing Agent" }

/-- Second sample test case of `load_sample_data`. -/
def sampleTestCase2 (now : String) : TestCase :=
  { test_id := "BATCH_ABOUT_US_LAYOUT_ELEMENTS",
    title := "Batch Test: Layout Elements on About Us",
    description := some "Efficiently test all layout elements together on the about us page",
    priority := some "P1", status := "FAILED",
    execution_time := some (16 / 5),
    test_steps :=
      [{ step_number := 1,
         action := "Test header section functionality and appearance",
         expected_result := "header section should work correctly and look good",
         status := "PASSED", actual_result := none, execution_time := none },
       { step_number := 2,
         action := "Test main content area functionality and appearance",
         expected_result := "main content area should work correctly and look good",
         status := "FAILED", actual_result := none, execution_time := none }],
    created_date := some now, tester := some "AI Testing Agent" }

/-- The sample bug report of `load_sample_data`. -/
def sampleBugReport (now : String) : BugReport :=
  { bug_id := "BUG_20241201_143022_1",
    title := "Test failure in Batch Test: Layout Elements on About Us",
    description := "Step 2: Test main content area functionality and appearance",
    severity := "MEDIUM", category := "UI Layout",
    steps_to_reproduce := some
      ["Navigate to the test page",
       "Execute test case: Batch Test: Layout Elements on About Us",
       "Reach step 2: Test main content area functionality and appearance"],
    expected_behavior := some "main content area should work correctly and look good",
    actual_behavior := some "Element test failed",
    environment := some "AI Testing Environment",
    browser := some "Chrome (via browser-use)",
    device := some "Desktop", screen_resolution := some "1920x1080",
    tester := some "AI Testing Agent", reported_date := some now,
    status := some "OPEN" }

/-- GET `/api/load_sample_data` (lines 583-668): `test_results.update` with
fixed demonstration data.  The update dictionary carries `test_cases`,
`bug_reports`, `coverage_reports` and `recommendations`, each REPLACING the
previous list wholesale; `test_suites` and `execution_logs` are untouched. -/
def load_sample_data (now : String) (res : Results) : Results :=
  { res with
    test_cases := [sampleTestCase1 now, sampleTestCase2 now],
    bug_reports := [sampleBugReport now],
    coverage_reports := [⟨now, sampleCoverage⟩],
    recommendations :=
      ["Increase test coverage for Accessibility Testing (currently 60.0%)",
       "Increase test coverage for Security Testing (currently 70.0%)",
       "Focus on fixing 1 high-severity bugs first"] }

/-- GET `/api/clear_results` (lines 710-746): reset both shared records. -/
def clear_results (_res : Results) (_st : Status) : Results × Status :=
  ({ test_cases := [], bug_reports := [], test_suites := [],
     coverage_reports := [], execution_logs := [], recommendations := [] },
   { is_running := false, is_paused := false, current_test_case := 0,
     total_test_cases := 0, progress_percentage := 0, current_url := "",
     status_message := "Ready for professional testing",
     current_focus_area := "", test_coverage := [] })

/-!
Spec-modelled report parser.  The specification (section 4.3) describes a
`parseBugReports` function, but no implementation of it exists anywhere
under the repository sources — only the spec text defines it.  The
definitions below are therefore modelled from the spec.  The narrative is
represented as its list of lines.
-/

/-- A character counting as a leading enumeration marker of a reproduction
step (digits, punctuation, whitespace). -/
def isEnumMark (c : Char) : Bool :=
  c.isDigit || c = '.' || c = ')' || c = '(' || c = '-' || c = '*' ||
    c = ' ' || c = '\t'

/-- Modelled from the spec: strip leading enumeration markers from one
reproduction step line. -/
def stripMarker (s : String) : String := ⟨s.data.dropWhile isEnumMark⟩

/-- Drop a literal tag from the front of a character list, or fail. -/
def dropPre : List Char → List Char → Option (List Char)
  | [], l => some l
  | _ :: _, [] => none
  | a :: as, b :: bs => if a = b then dropPre as bs else none

/-- Drop a literal tag from the front of a line, or fail. -/
def dropTag (tag s : String) : Option String :=
  (dropPre tag.data s.data).map (fun cs => ⟨cs⟩)

/-- The payload of one well-formed bug-report block of the fixed markdown
template (section 4.3 of the spec). -/
structure BugBlock where
  title : String
  description : String
  steps : List String
  expected : String
  actual : String
deriving DecidableEq

/-- Modelled from the spec: one structured bug record extracted by
`parseBugReports`, with the defaults the spec prescribes (severity Medium,
category Functional, status OPEN, sequential per-call identifier, report
timestamp stamped with the invocation time). -/
structure SpecBugReport where
  ident : Nat
  title : String
  description : String
  steps : List String
  expected : String
  actual : String
  severity : String
  category : String
  status : String
  reported : String
deriving DecidableEq

/-- The record built for the n-th matched block. -/
def mkParsedBug (n : Nat) (now : String) (b : BugBlock) : SpecBugReport :=
  { ident := n, title := b.title, description := b.description,
    steps := b.steps.map stripMarker, expected := b.expected,
    actual := b.actual, severity := "Medium", category := "Functional",
    status := "OPEN", reported := now }

/-- Modelled from the spec: try to match the body of the fixed template
right after a `## Bug Report` header line.  Returns the block payload and
the number of lines consumed; any deviation from the template fails the
whole block (malformed blocks are silently skipped by the caller). -/
def matchBlock (lines : List String) : Option (BugBlock × Nat) :=
  match lines with
  | b1 :: l1 :: b2 :: l2 :: b3 :: hdr :: rest =>
    if b1 = "" ∧ b2 = "" ∧ b3 = "" ∧ hdr = "**Steps to Reproduce:**" then
      match dropTag "**Bug Summary:** " l1, dropTag "**Description:** " l2 with
      | some t, some d =>
        let steps := rest.takeWhile (fun s => s ≠ "")
        (match rest.dropWhile (fun s => s ≠ "") with
         | c1 :: l3 :: c2 :: l4 :: _ =>
           if c1 = "" ∧ c2 = "" then
             (match dropTag "**Expected Result:** " l3,
                    dropTag "**Actual Result:** " l4 with
              | some e, some a =>
                  some (⟨t, d, steps, e, a⟩, 10 + steps.length)
              | _, _ => none)
           else none
         | _ => none)
      | _, _ => none
    else none
  | _ => none

/-- Modelled from the spec: scan the narrative lines for template blocks,
consuming each matched block and skipping headers whose continuation does
not fully match; `n` is the next sequential identifier. -/
def parseBugReportsAux (now : String) : List String → Nat → List SpecBugReport
  | [], _ => []
  | l :: rest, n =>
    if l = "## Bug Report" then
      match matchBlock rest with
      | some (b, k) =>
          mkParsedBug n now b :: parseBugReportsAux now (rest.drop k) (n + 1)
      | none => parseBugReportsAux now rest n
    else parseBugReportsAux now rest n
termination_by lines _ => lines.length
decreasing_by
  · simp [List.length_drop]
    omega
  · simp
  · simp

/-- Modelled from the spec: `parseBugReports(narrativeText)`, section 4.3:
extract every bug-report block matching the fixed markdown template. -/
def parseBugReports (now : String) (lines : List String) :
    List SpecBugReport :=
  parseBugReportsAux now lines 0

/-- Whether the narrative contains at least one block fully matching the
template (a header line whose continuation matches). -/
def anyMatch : List String → Bool
  | [] => false
  | l :: rest =>
      (l = "## Bug Report" && (matchBlock rest).isSome) || anyMatch rest

/-- The body lines of the fixed template for a block payload (everything
after the `## Bug Report` header). -/
def renderBlockTail (b : BugBlock) : List String :=
  ["", "**Bug Summary:** " ++ b.title,
   "", "**Description:** " ++ b.description,
   "", "**Steps to Reproduce:**"] ++ b.steps ++
  ["", "**Expected Result:** " ++ b.expected,
   "", "**Actual Result:** " ++ b.actual]

/-- A full template block for a block payload. -/
def renderBlock (b : BugBlock) : List String :=
  "## Bug Report" :: renderBlockTail b

/-- A narrative tail made of template blocks, each followed by free filler
lines. -/
def renderBlocks : List (BugBlock × List String) → List String
  | [] => []
  | (b, fill) :: rest => renderBlock b ++ fill ++ renderBlocks rest

/-- A well-formed narrative: a free preamble followed by template blocks
interleaved with free filler. -/
def renderNarrative (pre : List String)
    (blocks : List (BugBlock × List String)) : List String :=
  pre ++ renderBlocks blocks

/-- The records the parser is expected to produce for a block list,
numbering from `n`. -/
def expectedReports (now : String) : Nat → List (BugBlock × List String) →
    List SpecBugReport
  | _, [] => []
  | n, (b, _) :: rest => mkParsedBug n now b :: expectedReports now (n + 1) rest

/-- A block is well formed when its four scalar fields are non-empty and no
reproduction step is the empty line (the template ends the steps section at
the first blank line). -/
abbrev GoodBlock (b : BugBlock) : Prop :=
  b.title ≠ "" ∧ b.description ≠ "" ∧ b.expected ≠ "" ∧ b.actual ≠ "" ∧
    ∀ s ∈ b.steps, s ≠ ""

/-- Bool-valued prefix test over character lists. -/
def charsHasPre : List Char → List Char → Bool
  | [], _ => true
  | _ :: _, [] => false
  | a :: as, b :: bs => a = b && charsHasPre as bs

/-- Bool-valued substring test over character lists. -/
def charsHasSub (pat : List Char) : List Char → Bool
  | [] => charsHasPre pat []
  | l :: rest => charsHasPre pat (l :: rest) || charsHasSub pat rest

/-- Whether `pat` occurs as a contiguous substring of `s`. -/
def strContains (s pat : String) : Bool := charsHasSub pat.data s.data

/-! Dictionary lemmas. -/

theorem lookupK_setK_self : (cfg : List (String × JVal)) → (k : String) →
    (v : JVal) → lookupK (setK cfg k v) k = some v
  | [], k, v => by simp [setK, lookupK]
  | (k0, v0) :: tl, k, v => by
      by_cases h : k0 = k
      · simp [setK, h, lookupK]
      · simp [setK, h, lookupK, lookupK_setK_self tl k v]

theorem lookupK_setK_ne : (cfg : List (String × JVal)) → (k k2 : String) →
    (v : JVal) → k2 ≠ k → lookupK (setK cfg k v) k2 = lookupK cfg k2
  | [], k, k2, v, h => by
      have h2 : ¬ k = k2 := fun hh => h hh.symm
      simp [setK, lookupK, h2]
  | (k0, v0) :: tl, k, k2, v, h => by
      by_cases h0 : k0 = k
      · subst h0
        have h2 : ¬ k0 = k2 := fun hh => h hh.symm
        simp [setK, lookupK, h2]
      · simp only [setK, if_neg h0, lookupK]
        by_cases h2 : k0 = k2
        · simp [h2]
        · simp [h2, lookupK_setK_ne tl k k2 v h]

theorem keysOf_setK : (cfg : List (String × JVal)) → (k : String) →
    (v : JVal) → k ∈ keysOf cfg → keysOf (setK cfg k v) = keysOf cfg
  | [], k, v, h => by simp [keysOf] at h
  | (k0, v0) :: tl, k, v, h => by
      by_cases h0 : k0 = k
      · simp [setK, h0, keysOf]
      · have hmem : k ∈ keysOf tl := by
          have hk : k ∈ k0 :: keysOf tl := by simpa [keysOf] using h
          rcases List.mem_cons.mp hk with h1 | h1
          · exact absurd h1.symm h0
          · exact h1
        have ih := keysOf_setK tl k v hmem
        simp only [keysOf] at ih
        simp [setK, h0, keysOf, ih]

theorem lookupK_isSome_iff : (cfg : List (String × JVal)) → (k : String) →
    ((lookupK cfg k).isSome = true ↔ k ∈ keysOf cfg)
  | [], k => by simp [lookupK, keysOf]
  | (k0, v0) :: tl, k => by
      by_cases h0 : k0 = k
      · simp [lookupK, h0, keysOf]
      · have h2 : ¬ k = k0 := fun hh => h0 hh.symm
        simp [lookupK, h0, keysOf, h2, lookupK_isSome_iff tl k]

/-- `mergeStep` never changes the key set when the three credential keys
are present. -/
theorem keysOf_mergeStep (cfg : Config) (kv : String × JVal)
    (hg : "google_api_key" ∈ keysOf cfg)
    (ho : "openai_api_key" ∈ keysOf cfg)
    (hq : "groq_api_key" ∈ keysOf cfg) :
    keysOf (mergeStep cfg kv) = keysOf cfg := by
  unfold mergeStep
  by_cases hc : kv.1 = "api_key" ∧ jTruthy kv.2
  · simp only [if_pos hc]
    split
    · exact keysOf_setK _ _ _ hg
    · exact keysOf_setK _ _ _ ho
    · exact keysOf_setK _ _ _ hq
    · rfl
  · simp only [if_neg hc]
    by_cases hk : (lookupK cfg kv.1).isSome
    · rw [if_pos hk]
      exact keysOf_setK _ _ _ ((lookupK_isSome_iff _ _).mp hk)
    · rw [if_neg hk]

/-- Folding the merge loop never changes the key set when the provider and
credential keys are present. -/
theorem keysOf_foldl_mergeStep : (data : List (String × JVal)) →
    (cfg : Config) →
    "google_api_key" ∈ keysOf cfg → "openai_api_key" ∈ keysOf cfg →
    "groq_api_key" ∈ keysOf cfg →
    keysOf (data.foldl mergeStep cfg) = keysOf cfg
  | [], _, _, _, _ => rfl
  | kv :: rest, cfg, hg, ho, hq => by
      have hstep := keysOf_mergeStep cfg kv hg ho hq
      have hg2 : "google_api_key" ∈ keysOf (mergeStep cfg kv) := by
        rw [hstep]; exact hg
      have ho2 : "openai_api_key" ∈ keysOf (mergeStep cfg kv) := by
        rw [hstep]; exact ho
      have hq2 : "groq_api_key" ∈ keysOf (mergeStep cfg kv) := by
        rw [hstep]; exact hq
      have ih := keysOf_foldl_mergeStep rest (mergeStep cfg kv) hg2 ho2 hq2
      simpa [List.foldl, hstep] using ih

/-- The full request-body merge never changes the key set when the provider
and credential keys are present. -/
theorem keysOf_mergeConfigData (cfg : Config) (data : List (String × JVal))
    (hp : "provider" ∈ keysOf cfg)
    (hg : "google_api_key" ∈ keysOf cfg)
    (ho : "openai_api_key" ∈ keysOf cfg)
    (hq : "groq_api_key" ∈ keysOf cfg) :
    keysOf (mergeConfigData cfg data) = keysOf cfg := by
  unfold mergeConfigData
  cases hd : lookupK data "provider" with
  | none => simpa using keysOf_foldl_mergeStep data cfg hg ho hq
  | some v =>
      have hk := keysOf_setK cfg "provider" v hp
      have hg2 : "google_api_key" ∈ keysOf (setK cfg "provider" v) := by
        rw [hk]; exact hg
      have ho2 : "openai_api_key" ∈ keysOf (setK cfg "provider" v) := by
        rw [hk]; exact ho
      have hq2 : "groq_api_key" ∈ keysOf (setK cfg "provider" v) := by
        rw [hk]; exact hq
      simpa [keysOf_foldl_mergeStep data _ hg2 ho2 hq2] using hk

/-- C10: the configuration field set is invariant under the request-body
merges of POST `/api/config` and POST `/api/start`: (1) the merge loop and
(2) the full `/api/config` handler preserve the key set; (3) an entry whose
key is neither `api_key` nor an existing configuration key is silently
dropped; (4) an `api_key` entry whose value is falsy (the empty string)
leaves every credential field unchanged. -/
theorem config_merge_keyset_frame (cfg : Config) (data : List (String × JVal))
    (hp : "provider" ∈ keysOf cfg)
    (hg : "google_api_key" ∈ keysOf cfg)
    (ho : "openai_api_key" ∈ keysOf cfg)
    (hq : "groq_api_key" ∈ keysOf cfg)
    (ha : "api_keys_configured" ∈ keysOf cfg) :
    keysOf (mergeConfigData cfg data) = keysOf cfg ∧
    keysOf (update_config cfg data) = keysOf cfg ∧
    (∀ k v, k ∉ keysOf cfg → k ≠ "api_key" → mergeStep cfg (k, v) = cfg) ∧
    (∀ v, jTruthy v = false →
      lookupK (mergeConfigData cfg [("api_key", v)]) "google_api_key" =
        lookupK cfg "google_api_key" ∧
      lookupK (mergeConfigData cfg [("api_key", v)]) "openai_api_key" =
        lookupK cfg "openai_api_key" ∧
      lookupK (mergeConfigData cfg [("api_key", v)]) "groq_api_key" =
        lookupK cfg "groq_api_key") := by
  have hmm := keysOf_mergeConfigData cfg data hp hg ho hq
  refine ⟨hmm, ?_, ?_, ?_⟩
  · unfold update_config
    by_cases hd : data.isEmpty
    · rw [if_pos hd]
    · rw [if_neg hd]
      have ha2 : "api_keys_configured" ∈ keysOf (mergeConfigData cfg data) := by
        rw [hmm]; exact ha
      simpa [keysOf_setK _ _ _ ha2] using hmm
  · intro k v hk hk2
    unfold mergeStep
    have hc : ¬ ((k, v).1 = "api_key" ∧ jTruthy (k, v).2) := by
      intro hcc
      exact hk2 hcc.1
    rw [if_neg hc]
    have hns : ¬ (lookupK cfg k).isSome = true := by
      rw [lookupK_isSome_iff]
      exact hk
    simp [hns]
  · intro v hv
    have hone : mergeConfigData cfg [("api_key", v)] =
        if (lookupK cfg "api_key").isSome then setK cfg "api_key" v
        else cfg := by
      simp [mergeConfigData, lookupK, mergeStep, hv]
    rw [hone]
    by_cases hk : (lookupK cfg "api_key").isSome
    · rw [if_pos hk]
      refine ⟨?_, ?_, ?_⟩
      · exact lookupK_setK_ne _ _ _ _ (by decide)
      · exact lookupK_setK_ne _ _ _ _ (by decide)
      · exact lookupK_setK_ne _ _ _ _ (by decide)
    · rw [if_neg hk]
      exact ⟨rfl, rfl, rfl⟩

/-- C10 witness: the frame theorem applied to the shipped default
configuration, an unknown-key request body, and an empty `api_key`. -/
theorem config_merge_keyset_frame_witness :
    keysOf (mergeConfigData defaultConfig [("bogus", JVal.jstr "x")]) =
      keysOf defaultConfig ∧
    mergeStep defaultConfig ("bogus", JVal.jstr "x") = defaultConfig ∧
    lookupK (mergeConfigData defaultConfig [("api_key", JVal.jstr "")])
      "google_api_key" = lookupK defaultConfig "google_api_key" := by
  have h := config_merge_keyset_frame defaultConfig [("bogus", JVal.jstr "x")]
    (by decide) (by decide) (by decide) (by decide) (by decide)
  exact ⟨h.1, h.2.2.1 "bogus" (JVal.jstr "x") (by decide) (by decide),
    (h.2.2.2 (JVal.jstr "") (by decide)).1⟩

/-- C4: saving the configuration with body
`(provider := "openai", api_key := "sk-test")` routes the credential to
`openai_api_key`, leaves `google_api_key` and `groq_api_key` at their prior
values, and a subsequent GET `/api/config` returns exactly the updated
configuration — for every prior configuration. -/
theorem update_config_openai_frame (cfg : Config) :
    lookupK (update_config cfg
        [("provider", JVal.jstr "openai"), ("api_key", JVal.jstr "sk-test")])
      "openai_api_key" = some (JVal.jstr "sk-test") ∧
    lookupK (update_config cfg
        [("provider", JVal.jstr "openai"), ("api_key", JVal.jstr "sk-test")])
      "google_api_key" = lookupK cfg "google_api_key" ∧
    lookupK (update_config cfg
        [("provider", JVal.jstr "openai"), ("api_key", JVal.jstr "sk-test")])
      "groq_api_key" = lookupK cfg "groq_api_key" ∧
    get_config (update_config cfg
        [("provider", JVal.jstr "openai"), ("api_key", JVal.jstr "sk-test")]) =
      update_config cfg
        [("provider", JVal.jstr "openai"), ("api_key", JVal.jstr "sk-test")] := by
  have e1 : ("provider" : String) ≠ "api_key" := by decide
  have e2 : ("sk-test" : String) ≠ "" := by decide
  have hmerge : mergeConfigData cfg
      [("provider", JVal.jstr "openai"), ("api_key", JVal.jstr "sk-test")] =
      setK (setK (setK cfg "provider" (JVal.jstr "openai")) "provider"
        (JVal.jstr "openai")) "openai_api_key" (JVal.jstr "sk-test") := by
    simp [mergeConfigData, lookupK, mergeStep, e1, e2, jTruthy,
      lookupK_setK_self]
  obtain ⟨b, hb⟩ : ∃ b, update_config cfg
      [("provider", JVal.jstr "openai"), ("api_key", JVal.jstr "sk-test")] =
      setK (mergeConfigData cfg
        [("provider", JVal.jstr "openai"), ("api_key", JVal.jstr "sk-test")])
        "api_keys_configured" (JVal.jbool b) :=
    ⟨_, rfl⟩
  rw [hb, hmerge]
  refine ⟨?_, ?_, ?_, rfl⟩
  · rw [lookupK_setK_ne _ _ _ _ (by decide :
      ("openai_api_key" : String) ≠ "api_keys_configured")]
    exact lookupK_setK_self _ _ _
  · rw [lookupK_setK_ne _ _ _ _ (by decide :
      ("google_api_key" : String) ≠ "api_keys_configured"),
      lookupK_setK_ne _ _ _ _ (by decide :
      ("google_api_key" : String) ≠ "openai_api_key"),
      lookupK_setK_ne _ _ _ _ (by decide :
      ("google_api_key" : String) ≠ "provider"),
      lookupK_setK_ne _ _ _ _ (by decide :
      ("google_api_key" : String) ≠ "provider")]
  · rw [lookupK_setK_ne _ _ _ _ (by decide :
      ("groq_api_key" : String) ≠ "api_keys_configured"),
      lookupK_setK_ne _ _ _ _ (by decide :
      ("groq_api_key" : String) ≠ "openai_api_key"),
      lookupK_setK_ne _ _ _ _ (by decide :
      ("groq_api_key" : String) ≠ "provider"),
      lookupK_setK_ne _ _ _ _ (by decide :
      ("groq_api_key" : String) ≠ "provider")]

/-- C6: the model-client factory rejects every provider outside the
google / openai / groq / ollama enumeration with an unsupported-provider
error, rejects google / openai / groq with a missing-credential error when
the credential is absent or empty, and succeeds for ollama with no
credential. -/
theorem create_llm_spec (p m : String) (k : Option String) :
    (p ∉ (["google", "openai", "groq", "ollama"] : List String) →
      create_llm true p m k = Except.error (LLMError.unsupported p)) ∧
    ((p = "google" ∨ p = "openai" ∨ p = "groq") → optTruthy k = false →
      create_llm true p m k = Except.error (LLMError.missingKey p)) ∧
    create_llm true "ollama" m none = Except.ok (LLMClient.chatOllama m) := by
  refine ⟨?_, ?_, rfl⟩
  · intro h
    have h1 : p ≠ "google" := fun hh => h (by simp [hh])
    have h2 : p ≠ "openai" := fun hh => h (by simp [hh])
    have h3 : p ≠ "groq" := fun hh => h (by simp [hh])
    have h4 : p ≠ "ollama" := fun hh => h (by simp [hh])
    simp [create_llm, h1, h2, h3, h4]
  · rintro (rfl | rfl | rfl) hk <;> simp [create_llm, hk]

/-- C6 witness: factory outcomes at concrete providers. -/
theorem create_llm_spec_witness :
    create_llm true "azure" "m" none =
      Except.error (LLMError.unsupported "azure") ∧
    create_llm true "google" "m" (some "") =
      Except.error (LLMError.missingKey "google") ∧
    create_llm true "ollama" "m" none = Except.ok (LLMClient.chatOllama "m") :=
  ⟨(create_llm_spec "azure" "m" none).1 (by decide),
   (create_llm_spec "google" "m" (some "")).2.1 (Or.inl rfl) (by decide),
   (create_llm_spec "ollama" "m" none).2.2⟩

/-- The result-processing step commutes with setting the paused flag: it
never reads `is_paused`. -/
theorem process_test_results_paused (now : String) (st : Status)
    (res : Results) (out : RunOutput) (b : Bool) :
    process_test_results now { st with is_paused := b } res out =
      ({ (process_test_results now st res out).1 with is_paused := b },
       (process_test_results now st res out).2) := by
  obtain ⟨tc, br, el, rc, cv⟩ := out
  cases tc <;> cases br <;> cases el <;> cases rc <;> cases cv <;> rfl

/-- The background run commutes with setting the paused flag: the
controller never reads `is_paused`, so results and events are independent
of it and the flag itself is passed through unchanged. -/
theorem run_suite_paused_independent (bodyStatus : Status)
    (body : Except String RunOutput) (now : String) (res : Results)
    (b : Bool) :
    run_professional_test_suite { bodyStatus with is_paused := b }
        body now res =
      ({ (run_professional_test_suite bodyStatus body now res).1 with
          is_paused := b },
       (run_professional_test_suite bodyStatus body now res).2.1,
       (run_professional_test_suite bodyStatus body now res).2.2) := by
  cases body with
  | ok out =>
      simp only [run_professional_test_suite, process_test_results_paused]
  | error e => rfl

/-- C9: POST `/api/pause` toggles the paused flag and answers with a
`{status}` body while a run is in progress, answers 400 otherwise, and the
flag is advisory only: the run execution is independent of its value. -/
theorem pause_toggle_and_advisory (st bodyStatus : Status)
    (body : Except String RunOutput) (now : String) (res : Results)
    (b : Bool) :
    (st.is_running = true →
      (pause_test st).2.is_paused = !st.is_paused ∧
      ∃ s, (pause_test st).1 = PauseResp.statusBody s) ∧
    (st.is_running = false →
      pause_test st = (PauseResp.badRequest "No test running", st)) ∧
    run_professional_test_suite { bodyStatus with is_paused := b }
        body now res =
      ({ (run_professional_test_suite bodyStatus body now res).1 with
          is_paused := b },
       (run_professional_test_suite bodyStatus body now res).2.1,
       (run_professional_test_suite bodyStatus body now res).2.2) := by
  refine ⟨?_, ?_, run_suite_paused_independent bodyStatus body now res b⟩
  · intro h1
    by_cases h2 : st.is_paused <;> simp [pause_test, h1, h2]
  · intro h1
    simp [pause_test, h1]

/-- C9 witness: the pause handler evaluated on a running and on an idle
status record. -/
theorem pause_toggle_and_advisory_witness :
    ((pause_test { initialStatus with is_running := true }).2.is_paused =
        !({ initialStatus with is_running := true } : Status).is_paused ∧
      ∃ s, (pause_test { initialStatus with is_running := true }).1 =
        PauseResp.statusBody s) ∧
    pause_test initialStatus =
      (PauseResp.badRequest "No test running", initialStatus) :=
  ⟨(pause_toggle_and_advisory { initialStatus with is_running := true }
      initialStatus (Except.error "e") "t" initialResults false).1 rfl,
   (pause_toggle_and_advisory initialStatus
      initialStatus (Except.error "e") "t" initialResults false).2.1 rfl⟩

/-- C5: every exception escaping the background run body is converted into
a CRITICAL bug report appended to the shared results, and the background
task always reaches the terminal `test_completed` broadcast. -/
theorem run_suite_error_to_critical (bodyStatus : Status)
    (body : Except String RunOutput) (now : String) (res : Results) :
    (∀ e, body = Except.error e →
      (run_professional_test_suite bodyStatus body now res).2.1.bug_reports =
        res.bug_reports ++ [criticalBugReport e now] ∧
      (criticalBugReport e now).severity = "CRITICAL") ∧
    Event.test_completed ∈
      (run_professional_test_suite bodyStatus body now res).2.2 := by
  constructor
  · rintro e rfl
    exact ⟨rfl, rfl⟩
  · cases body with
    | ok out => simp [run_professional_test_suite]
    | error e => simp [run_professional_test_suite]

/-- C5 witness: a concrete failing run. -/
theorem run_suite_error_to_critical_witness :
    (run_professional_test_suite initialStatus (Except.error "boom") "t0"
        initialResults).2.1.bug_reports =
      initialResults.bug_reports ++ [criticalBugReport "boom" "t0"] ∧
    Event.test_completed ∈
      (run_professional_test_suite initialStatus (Except.error "boom") "t0"
        initialResults).2.2 :=
  ⟨((run_suite_error_to_critical initialStatus (Except.error "boom") "t0"
      initialResults).1 "boom" rfl).1,
   (run_suite_error_to_critical initialStatus (Except.error "boom") "t0"
      initialResults).2⟩

/-- C2: evaluation of the `/api/start` handler at a fully valid request
(non-empty URL, provider ollama needing no credential, agent library
available) against the shipped default configuration: the handler raises
KeyError on the missing `test_focus` key while building the status reset
(line 510), so it answers 500 instead of `{status, message}`, and neither
resets the shared state nor launches the background run. -/
theorem start_test_keyerror_test_focus :
    (start_test true defaultConfig initialStatus initialResults
        [("website_url", JVal.jstr "https://demoblaze.com/"),
         ("provider", JVal.jstr "ollama")]).1 =
      StartOutcome.keyError "test_focus" ∧
    (start_test true defaultConfig initialStatus initialResults
        [("website_url", JVal.jstr "https://demoblaze.com/"),
         ("provider", JVal.jstr "ollama")]).2.2.1 = initialStatus ∧
    (start_test true defaultConfig initialStatus initialResults
        [("website_url", JVal.jstr "https://demoblaze.com/"),
         ("provider", JVal.jstr "ollama")]).2.2.2.1 = initialResults ∧
    (start_test true defaultConfig initialStatus initialResults
        [("website_url", JVal.jstr "https://demoblaze.com/"),
         ("provider", JVal.jstr "ollama")]).2.2.2.2 = false := by
  decide

/-- C3: the eager request-time validation of `/api/start`: a request whose
merged configuration selects provider ollama passes credential validation
whatever the credential fields hold (in particular with none present),
while a request whose merged configuration selects provider google with an
empty google credential is rejected with the 400 missing-credential
response, before the background thread starts and with the shared status
and results untouched. -/
theorem start_validation (laminarAvailable : Bool) (cfg : Config)
    (st : Status) (res : Results) (data : List (String × JVal)) :
    (∀ u, lookupK (mergeConfigData cfg data) "website_url" = some u →
      jTruthy u = true →
      lookupK (mergeConfigData cfg data) "provider" =
        some (JVal.jstr "ollama") →
      (start_test laminarAvailable cfg st res data).1.isBadRequest =
        false) ∧
    (∀ u, lookupK (mergeConfigData cfg data) "website_url" = some u →
      jTruthy u = true →
      lookupK (mergeConfigData cfg data) "provider" =
        some (JVal.jstr "google") →
      lookupK (mergeConfigData cfg data) "google_api_key" =
        some (JVal.jstr "") →
      (start_test laminarAvailable cfg st res data).1 =
        StartOutcome.badRequestKey "google" ∧
      (start_test laminarAvailable cfg st res data).2.2.1 = st ∧
      (start_test laminarAvailable cfg st res data).2.2.2.1 = res ∧
      (start_test laminarAvailable cfg st res data).2.2.2.2 = false) := by
  constructor
  · intro u hu htr hp
    simp only [start_test, hu, hp, htr]
    by_cases hl : laminarAvailable
    · simp only [hl]
      cases hfv : lookupK (mergeConfigData cfg data) "test_focus" <;>
        simp [hfv, StartOutcome.isBadRequest]
    · simp [hl, StartOutcome.isBadRequest]
  · intro u hu htr hp hkey
    have happ : ("google" ++ "_api_key" : String) = "google_api_key" := rfl
    simp only [start_test, hu, hp, htr, happ, hkey]
    simp [jTruthy, asStr]

/-- C3 witness: the validation outcomes on the shipped default
configuration, whose credential fields are all empty. -/
theorem start_validation_witness :
    (start_test true defaultConfig initialStatus initialResults
        [("provider", JVal.jstr "ollama")]).1.isBadRequest = false ∧
    (start_test true defaultConfig initialStatus initialResults
        [("provider", JVal.jstr "google")]).1 =
      StartOutcome.badRequestKey "google" :=
  ⟨(start_validation true defaultConfig initialStatus initialResults
      [("provider", JVal.jstr "ollama")]).1
      (JVal.jstr "https://demoblaze.com/") (by decide) (by decide) (by decide),
   ((start_validation true defaultConfig initialStatus initialResults
      [("provider", JVal.jstr "google")]).2
      (JVal.jstr "https://demoblaze.com/") (by decide) (by decide) (by decide)
      (by decide)).1⟩

/-- C8 counterexample: `load_sample_data` is an operation that records a
coverage snapshot, yet it REPLACES the coverage-reports list: a previously
recorded snapshot (timestamp t1) is gone afterwards, leaving only the
sample snapshot (timestamp t2). -/
theorem load_sample_data_overwrites_coverage :
    ({ initialResults with coverage_reports :=
        [⟨"t1", [("Functional Testing", 50)]⟩] } :
      Results).coverage_reports.map CoverageSnapshot.timestamp = ["t1"] ∧
    (load_sample_data "t2"
      { initialResults with coverage_reports :=
          [⟨"t1", [("Functional Testing", 50)]⟩] }).coverage_reports.map
        CoverageSnapshot.timestamp = ["t2"] :=
  ⟨rfl, rfl⟩

/-- C8 (amended): the run-result processing step is append-only on the
coverage history — it appends a timestamped snapshot when the run summary
carries one and otherwise leaves the list untouched, always preserving the
previously recorded snapshots as a prefix. -/
theorem process_coverage_append_only (now : String) (st : Status)
    (res : Results) (out : RunOutput) :
    (process_test_results now st res out).2.coverage_reports =
      res.coverage_reports ++
        (match out.coverage with
         | some c => [⟨now, c⟩]
         | none => []) := by
  obtain ⟨tc, br, el, rc, cv⟩ := out
  cases tc <;> cases br <;> cases el <;> cases rc <;> cases cv <;>
    simp [process_test_results]

set_option maxRecDepth 8192 in
/-- C7 counterexample: with the claimed inputs (website URL
`https://demoblaze.com/` and instructions `Test user login with valid
credentials.`) the executor prompt built by `_generate_test_task` does not
even contain the token `PASS`, so it cannot end with an instruction to
respond PASS or FAIL. -/
theorem generate_test_task_no_pass_token :
    strContains (generate_test_task (setK defaultConfig "custom_prompt"
      (JVal.jstr "Test user login with valid credentials.")))
      "PASS" = false := by
  decide

set_option maxRecDepth 8192 in
/-- C7 (amended): with those inputs the executor prompt contains the
literal website URL and the literal test-case description, and ends with an
instruction to provide a summary of the findings (there is no PASS/FAIL
verdict instruction in the code). -/
theorem generate_test_task_contains_inputs :
    strContains (generate_test_task (setK defaultConfig "custom_prompt"
        (JVal.jstr "Test user login with valid credentials.")))
      "https://demoblaze.com/" = true ∧
    strContains (generate_test_task (setK defaultConfig "custom_prompt"
        (JVal.jstr "Test user login with valid credentials.")))
      "Test user login with valid credentials." = true ∧
    strContains (generate_test_task (setK defaultConfig "custom_prompt"
        (JVal.jstr "Test user login with valid credentials.")))
      "Provide a summary of your findings at the end." = true := by
  refine ⟨by decide, by decide, by decide⟩

/-! Lemmas for the spec-modelled report parser. -/

theorem dropPre_self : (t : List Char) → (r : List Char) →
    dropPre t (t ++ r) = some r
  | [], _ => rfl
  | c :: t, r => by simp [dropPre, dropPre_self t r]

theorem dropTag_self (tag r : String) : dropTag tag (tag ++ r) = some r := by
  unfold dropTag
  rw [String.data_append, dropPre_self]
  rfl

theorem takeWhile_append_sat {α : Type} (p : α → Bool) :
    (xs : List α) → (y : α) → (ys : List α) →
    (∀ x ∈ xs, p x = true) → p y = false →
    (xs ++ y :: ys).takeWhile p = xs ∧ (xs ++ y :: ys).dropWhile p = y :: ys
  | [], y, ys, _, hy => by simp [List.takeWhile, List.dropWhile, hy]
  | x :: xs, y, ys, hx, hy => by
      have hpx : p x = true := hx x (List.mem_cons_self x xs)
      have ih := takeWhile_append_sat p xs y ys
        (fun a ha => hx a (List.mem_cons_of_mem x ha)) hy
      simp [List.takeWhile, List.dropWhile, hpx, ih.1, ih.2]

theorem matchBlock_renderTail (b : BugBlock) (rest : List String)
    (hsteps : ∀ s ∈ b.steps, s ≠ "") :
    matchBlock (renderBlockTail b ++ rest) =
      some (b, 10 + b.steps.length) := by
  obtain ⟨t, d, steps, e, a⟩ := b
  have hsat : ∀ x ∈ steps, (!decide (x = "")) = true := by
    intro x hx
    simpa using hsteps x hx
  have htw := takeWhile_append_sat (fun s : String => !decide (s = ""))
    steps "" (("**Expected Result:** " ++ e) :: "" ::
      ("**Actual Result:** " ++ a) :: rest) hsat (by simp)
  simp only [renderBlockTail, List.cons_append, List.nil_append,
    List.append_assoc]
  simp [matchBlock, dropTag_self, htw.1, htw.2]

theorem drop_renderBlockTail (b : BugBlock) (rest : List String) :
    (renderBlockTail b ++ rest).drop (10 + b.steps.length) = rest := by
  have hlen : (renderBlockTail b).length = 10 + b.steps.length := by
    simp [renderBlockTail]
    omega
  rw [← hlen, List.drop_left]

theorem parseAux_cons_skip (now l : String) (rest : List String) (n : Nat)
    (h : l ≠ "## Bug Report") :
    parseBugReportsAux now (l :: rest) n = parseBugReportsAux now rest n := by
  rw [parseBugReportsAux]
  simp [h]

theorem parseAux_cons_match (now : String) (rest : List String) (n : Nat)
    (b : BugBlock) (k : Nat) (h : matchBlock rest = some (b, k)) :
    parseBugReportsAux now ("## Bug Report" :: rest) n =
      mkParsedBug n now b :: parseBugReportsAux now (rest.drop k) (n + 1) := by
  rw [parseBugReportsAux]
  simp [h]

theorem parseAux_cons_nomatch (now : String) (rest : List String) (n : Nat)
    (h : matchBlock rest = none) :
    parseBugReportsAux now ("## Bug Report" :: rest) n =
      parseBugReportsAux now rest n := by
  rw [parseBugReportsAux]
  simp [h]

theorem parseAux_nil (now : String) (n : Nat) :
    parseBugReportsAux now [] n = [] := by
  rw [parseBugReportsAux]

theorem parseAux_append_nomem : (fill rest : List String) → (now : String) →
    (n : Nat) → "## Bug Report" ∉ fill →
    parseBugReportsAux now (fill ++ rest) n = parseBugReportsAux now rest n
  | [], _, _, _, _ => rfl
  | l :: fill, rest, now, n, h => by
      have h1 : l ≠ "## Bug Report" := fun hh =>
        h (hh ▸ List.mem_cons_self l fill)
      have h2 : "## Bug Report" ∉ fill := fun hh =>
        h (List.mem_cons_of_mem l hh)
      rw [List.cons_append, parseAux_cons_skip now l (fill ++ rest) n h1,
        parseAux_append_nomem fill rest now n h2]

theorem parseAux_renderBlocks (now : String) :
    (blocks : List (BugBlock × List String)) → (n : Nat) →
    (∀ p ∈ blocks, "## Bug Report" ∉ p.2) →
    (∀ p ∈ blocks, GoodBlock p.1) →
    parseBugReportsAux now (renderBlocks blocks) n =
      expectedReports now n blocks
  | [], n, _, _ => parseAux_nil now n
  | (b, fill) :: rest, n, hfill, hgood => by
      have hg : GoodBlock b := hgood (b, fill) (List.mem_cons_self _ _)
      have hsteps : ∀ s ∈ b.steps, s ≠ "" := hg.2.2.2.2
      have hmb := matchBlock_renderTail b (fill ++ renderBlocks rest) hsteps
      have hshape : renderBlocks ((b, fill) :: rest) =
          "## Bug Report" ::
            (renderBlockTail b ++ (fill ++ renderBlocks rest)) := by
        simp [renderBlocks, renderBlock, List.append_assoc]
      rw [hshape, parseAux_cons_match now _ n b _ hmb,
        drop_renderBlockTail b (fill ++ renderBlocks rest),
        parseAux_append_nomem fill (renderBlocks rest) now (n + 1)
          (hfill (b, fill) (List.mem_cons_self _ _)),
        parseAux_renderBlocks now rest (n + 1)
          (fun p hp => hfill p (List.mem_cons_of_mem _ hp))
          (fun p hp => hgood p (List.mem_cons_of_mem _ hp))]
      rfl

theorem expectedReports_length (now : String) :
    (n : Nat) → (blocks : List (BugBlock × List String)) →
    (expectedReports now n blocks).length = blocks.length
  | _, [] => rfl
  | n, _ :: rest => by
      simp [expectedReports, expectedReports_length now (n + 1) rest]

theorem expectedReports_mem (now : String) :
    (n : Nat) → (blocks : List (BugBlock × List String)) →
    (r : SpecBugReport) → r ∈ expectedReports now n blocks →
    ∃ m p, p ∈ blocks ∧ r = mkParsedBug m now p.1
  | _, [], r, h => absurd h (List.not_mem_nil r)
  | n, (b, fill) :: rest, r, h => by
      rcases List.mem_cons.mp h with h1 | h1
      · exact ⟨n, (b, fill), List.mem_cons_self _ _, h1⟩
      · obtain ⟨m, p, hp, hr⟩ := expectedReports_mem now (n + 1) rest r h1
        exact ⟨m, p, List.mem_cons_of_mem _ hp, hr⟩

theorem dropWhile_idem {α : Type} (p : α → Bool) :
    (l : List α) → (l.dropWhile p).dropWhile p = l.dropWhile p
  | [] => rfl
  | x :: l => by
      by_cases h : p x
      · simp [List.dropWhile, h, dropWhile_idem p l]
      · simp [List.dropWhile, h]

theorem stripMarker_idem (s : String) :
    stripMarker (stripMarker s) = stripMarker s := by
  unfold stripMarker
  rw [show (⟨s.data.dropWhile isEnumMark⟩ : String).data =
    s.data.dropWhile isEnumMark from rfl, dropWhile_idem]

theorem parseAux_eq_nil_of_no_match : (lines : List String) →
    (now : String) → (n : Nat) → anyMatch lines = false →
    parseBugReportsAux now lines n = []
  | [], now, n, _ => parseAux_nil now n
  | l :: rest, now, n, h => by
      rw [anyMatch] at h
      simp only [Bool.or_eq_false_iff, Bool.and_eq_false_iff] at h
      have hrest := parseAux_eq_nil_of_no_match rest now n h.2
      by_cases hl : l = "## Bug Report"
      · rcases h.1 with h1 | h1
        · rw [hl] at h1
          simp at h1
        · have hnone : matchBlock rest = none :=
            Option.not_isSome_iff_eq_none.mp (by simp [h1])
          rw [hl, parseAux_cons_nomatch now rest n hnone]
          exact hrest
      · rw [parseAux_cons_skip now l rest n hl]
        exact hrest

/-- C1: for every well-formed narrative — any preamble and inter-block
filler free of the block header, and N template blocks with non-empty
title / description / expected / actual and non-blank steps — the parser
returns exactly the N expected records in order, hence exactly N records,
each with non-empty scalar fields and every reproduction step stripped of
leading enumeration markers; and on any narrative containing no matching
block it returns the empty list (it is total, so no error is possible). -/
theorem parseBugReports_template (now : String) :
    (∀ (pre : List String) (blocks : List (BugBlock × List String)),
      "## Bug Report" ∉ pre →
      (∀ p ∈ blocks, "## Bug Report" ∉ p.2) →
      (∀ p ∈ blocks, GoodBlock p.1) →
      parseBugReports now (renderNarrative pre blocks) =
        expectedReports now 0 blocks ∧
      (parseBugReports now (renderNarrative pre blocks)).length =
        blocks.length ∧
      (∀ r ∈ parseBugReports now (renderNarrative pre blocks),
        r.title ≠ "" ∧ r.description ≠ "" ∧ r.expected ≠ "" ∧
        r.actual ≠ "" ∧ ∀ s ∈ r.steps, stripMarker s = s)) ∧
    (∀ lines, anyMatch lines = false →
      parseBugReports now lines = []) := by
  constructor
  · intro pre blocks hpre hfill hgood
    have heq : parseBugReports now (renderNarrative pre blocks) =
        expectedReports now 0 blocks := by
      unfold parseBugReports renderNarrative
      rw [parseAux_append_nomem pre (renderBlocks blocks) now 0 hpre]
      exact parseAux_renderBlocks now blocks 0 hfill hgood
    refine ⟨heq, ?_, ?_⟩
    · rw [heq]
      exact expectedReports_length now 0 blocks
    · intro r hr
      rw [heq] at hr
      obtain ⟨m, p, hp, rfl⟩ := expectedReports_mem now 0 blocks r hr
      have hg := hgood p hp
      refine ⟨hg.1, hg.2.1, hg.2.2.1, hg.2.2.2.1, ?_⟩
      intro s hs
      simp only [mkParsedBug, List.mem_map] at hs
      obtain ⟨s0, _, rfl⟩ := hs
      exact stripMarker_idem s0
  · intro lines h
    exact parseAux_eq_nil_of_no_match lines now 0 h

/-- C1 witness: the parser on a concrete two-step bug block surrounded by
filler, and on a narrative with no matching block. -/
theorem parseBugReports_template_witness :
    parseBugReports "2024-01-01" (renderNarrative ["intro line"]
      [(⟨"Login broken", "The login button does nothing",
         ["1. open the page", "2. click login"],
         "User is logged in", "Nothing happens"⟩, ["trailing line"])]) =
      expectedReports "2024-01-01" 0
        [(⟨"Login broken", "The login button does nothing",
           ["1. open the page", "2. click login"],
           "User is logged in", "Nothing happens"⟩, ["trailing line"])] ∧
    parseBugReports "x" ["hello", "world"] = [] :=
  ⟨((parseBugReports_template "2024-01-01").1 ["intro line"]
      [(⟨"Login broken", "The login button does nothing",
         ["1. open the page", "2. click login"],
         "User is logged in", "Nothing happens"⟩, ["trailing line"])]
      (by decide) (by decide) (by decide)).1,
   (parseBugReports_template "x").2 ["hello", "world"] (by decide)⟩
